import Mathlib

/-
Shallow embedding of the gentleman repository (a Ganeti RAPI client).

Modules embedded:
  gentleman/helpers.py  : prepare_query (identical copy also in gentleman/base.py)
  gentleman/errors.py   : the exception taxonomy
  gentleman/sync.py     : RequestsRapiClient (__init__ and _SendRequest)
  gentleman/async.py    : TwistedRapiClient (__init__, request, start) and
                          JsonResponseProtocol.connectionLost

External collaborators (the requests library, Twisted, simplejson, the
socket library) are not part of the repository; they enter the embedding as
parameters: the JSON decoder simplejson.loads is a parameter
(loads : String -> Except Err Json), the network is an explicit event
(RequestsNet / TwistedNet), and socket.inet_pton on AF_INET6 is a parameter
(isV6 : String -> Bool) meaning "inet_pton accepts the host as an IPv6
literal".  Python dicts are modelled as association lists whose order is the
iteration order of the dict.
-/

/-- A decoded JSON value (the result of simplejson.loads), which is also the
universe of Python values the client returns.  Json.null models Python None;
the code under verification never computes with JSON floats, which are
therefore omitted. -/
inductive Json where
  | null
  | bool (b : Bool)
  | int (n : Int)
  | str (s : String)
  | arr (elems : List Json)
  | obj (entries : List (String × Json))

/-- The failure taxonomy of the client.  gentleman/errors.py defines
GentleError, CertificateError, GanetiApiError and NotOkayError; only
NotOkayError declares an __init__ accepting a code keyword.  ganetiApiError
keeps an Option code field for a code keyword a raise site would attach, but
no reachable raise site produces one: the only site passing code= to
GanetiApiError (sync.py line 207) fails with TypeError instead of
constructing the exception, so every produced ganetiApiError has code none.
clientError models the ClientError class that sync.py and async.py try to
raise; gentleman/errors.py defines no class of that name, so no execution
path can actually produce this failure - the constructor is kept in the
taxonomy to state exactly that (see RequestsRapiClient.init,
TwistedRapiClient.init, TwistedRapiClient.request).  valueError, typeError,
nameError and importError model the Python built-ins of those names, and
jsonDecodeError the simplejson decode failure. -/
inductive Err where
  | clientError (msg : String)
  | ganetiApiError (msg : String) (code : Option Nat)
  | notOkayError (code : Option Nat)
  | valueError (msg : String)
  | typeError (msg : String)
  | nameError (msg : String)
  | importError (msg : String)
  | jsonDecodeError (msg : String)
  deriving DecidableEq

/-- A Python value that can appear in a query dict handed to prepare_query.
QVal.none models Python None. -/
inductive QVal where
  | none
  | bool (b : Bool)
  | int (n : Int)
  | float (f : Float)
  | str (s : String)
  | list (elems : List QVal)
  | dict (entries : List (String × QVal))

/-- gentleman/helpers.py, prepare_query (lines 7-33; the copy in base.py lines
84-110 is textually identical).  The Python function mutates the dict in
place while iterating over it and returns nothing; the embedding returns the
state of the dict when the function exits together with the exception it
raised, if any.  Entries are visited in iteration order; a None value is
replaced by the empty string, a bool by int(value) (1 for True, 0 for False),
a dict value raises ValueError (stopping the loop, so later entries are left
untouched), and every other value is left unchanged. -/
def prepare_query : List (String × QVal) → List (String × QVal) × Option Err
  | [] => ([], Option.none)
  | (k, v) :: rest =>
    match v with
    | QVal.none =>
      let r := prepare_query rest
      ((k, QVal.str "") :: r.1, r.2)
    | QVal.bool b =>
      let r := prepare_query rest
      ((k, QVal.int (if b then 1 else 0)) :: r.1, r.2)
    | QVal.dict d =>
      ((k, QVal.dict d) :: rest,
       some (Err.valueError "Invalid query data type \x27dict\x27"))
    | v =>
      let r := prepare_query rest
      ((k, v) :: r.1, r.2)

/-- Python string interpolation "%d" % value, as used by async.py line 201.
For an int it renders the number and for a bool it renders 1 or 0; for any
other value the %d conversion itself raises TypeError (Python 2 semantics),
so the message never gets built. -/
def format_d : Json → Except Err String
  | Json.int n => Except.ok (toString n)
  | Json.bool b => Except.ok (if b then "1" else "0")
  | Json.null => Except.error (Err.typeError "%d format: a number is required, not NoneType")
  | Json.str _ => Except.error (Err.typeError "%d format: a number is required, not str")
  | Json.arr _ => Except.error (Err.typeError "%d format: a number is required, not list")
  | Json.obj _ => Except.error (Err.typeError "%d format: a number is required, not dict")

/-- sync.py lines 145-153: the address string is "[host]:port" when
socket.inet_pton(AF_INET6, host) succeeds (isV6 host) and "host:port"
otherwise. -/
def sync_address (isV6 : String → Bool) (host : String) (port : Nat) : String :=
  if isV6 host then "[" ++ host ++ "]:" ++ toString port
  else host ++ ":" ++ toString port

/-- sync.py line 153: _base_url = "https://%s" % address. -/
def requests_base_url (isV6 : String → Bool) (host : String) (port : Nat) : String :=
  "https://" ++ sync_address isV6 host port

/-- async.py line 122: _base_url = "https://%s:%d" % (host, port) - the host
is used verbatim, with no IPv6 bracketing. -/
def twisted_base_url (host : String) (port : Nat) : String :=
  "https://" ++ host ++ ":" ++ toString port

/-- async.py line 22 reads: from gentleman.errors import ClientError,
GanetiApiError, NotOkayError.  gentleman/errors.py defines GanetiApiError and
NotOkayError but no ClientError, so in Python the import statement itself
fails with this ImportError and the async module never loads.  The embedding
keeps the runtime logic of the module (the subject of the handshake and
dispatch claims) and models every reach of its raise ClientError statements
as this import failure - the failure that, in the real program, manifests in
its place and guarantees the ClientError failure kind is never produced by
the non-blocking variant. -/
def async_import_failure : Err :=
  Err.importError "cannot import name ClientError"

/-- The state of a RequestsRapiClient after __init__ (sync.py lines 120-153).
The field spelled _base_url in the source is base_url here. -/
structure RequestsRapiClient where
  username : Option String
  password : Option String
  timeout : Nat
  base_url : String

/-- sync.py RequestsRapiClient.__init__ (lines 120-153): when a username
comes without a password or a password without a username (both checks
compare against None), the code executes raise ClientError(...) - but
sync.py neither defines nor imports any ClientError, so evaluating the name
raises NameError("global name \x27ClientError\x27 is not defined") and that
is the failure the caller sees.  Otherwise the credentials are recorded and
the base URL computed.  No network activity happens here. -/
def RequestsRapiClient.init (isV6 : String → Bool) (host : String) (port : Nat)
    (username password : Option String) (timeout : Nat) :
    Except Err RequestsRapiClient :=
  if username.isSome && password.isNone then
    Except.error (Err.nameError "global name \x27ClientError\x27 is not defined")
  else if password.isSome && username.isNone then
    Except.error (Err.nameError "global name \x27ClientError\x27 is not defined")
  else
    Except.ok ⟨username, password, timeout, requests_base_url isV6 host port⟩

/-- The state of a TwistedRapiClient after __init__ (async.py lines 93-122).
auth models the Authorization header added when both credentials are truthy;
version and features are the class attributes of async.py lines 90-91,
initially None and the empty list. -/
structure TwistedRapiClient where
  auth : Option (String × String)
  base_url : String
  version : Json
  features : Json

/-- async.py TwistedRapiClient.__init__ (lines 93-122): the same two
credential checks as the sync client (against None), whose raise
ClientError(...) statements reference a class that does not exist - the
module-level import of ClientError fails, so in real Python the module never
loads and no TwistedRapiClient can be constructed at all; the embedding
models reaching those raise statements as async_import_failure.  Past the
checks come the Authorization header when both credentials are truthy (so
empty strings configure no auth) and the base URL with no IPv6 bracketing.
No network activity happens here. -/
def TwistedRapiClient.init (host : String) (port : Nat)
    (username password : Option String) (timeout : Nat) :
    Except Err TwistedRapiClient :=
  if username.isSome && password.isNone then
    Except.error async_import_failure
  else if password.isSome && username.isNone then
    Except.error async_import_failure
  else
    Except.ok ⟨(match username, password with
                | some u, some p => if u != "" && p != "" then some (u, p) else Option.none
                | _, _ => Option.none),
               twisted_base_url host port,
               Json.null, Json.arr []⟩

/-- An HTTP response as the requests library presents it to sync.py:
a status code and a body string. -/
structure SyncResponse where
  status_code : Nat
  content : String

/-- The network event observed by one sync.py _SendRequest call:
requests.ConnectionError, requests.Timeout, or a response. -/
inductive RequestsNet where
  | connectionError
  | timeout
  | response (r : SyncResponse)

/-- The network event observed by one async.py request call: the Agent
deferred failing with ConnectionRefusedError, or a response with a status
code and the body chunks later delivered to the protocol. -/
inductive TwistedNet where
  | connectionRefused
  | response (code : Nat) (chunks : List String)

/-- Python str.startswith, on the character sequences of the strings. -/
def startswith (s pre : String) : Bool := pre.data.isPrefixOf s.data

/-- The query-preparation step shared by sync.py line 190-192 and async.py
lines 159-162: prepare_query runs only when the query is truthy (neither None
nor the empty dict); the exception it may raise propagates out of the request
call before any network traffic. -/
def queryPrepErr : Option (List (String × QVal)) → Option Err
  | Option.none => Option.none
  | some q => if q.isEmpty then Option.none else (prepare_query q).2

/-- sync.py RequestsRapiClient._SendRequest (lines 156-212).  There is no
path check of any kind; the URL is base_url + path (line 194).  A connection
failure or timeout raises a plain GanetiApiError naming the base URL.  On a
response with a status other than 200, line 207 executes
GanetiApiError(str(status_code), code=status_code); GanetiApiError declares
no __init__ (errors.py gives a code parameter only to NotOkayError), so the
keyword argument reaches BaseException.__init__, which in Python 2 rejects
any keyword with TypeError("GanetiApiError does not take keyword arguments")
- the exception construction itself fails and the exchange fails with that
TypeError, never with a NotOkayError and never with a code-carrying
GanetiApiError.  On a 200 response a non-empty body is handed to
simplejson.loads and an empty body returns None without touching the
decoder. -/
def RequestsRapiClient.sendRequest (loads : String → Except Err Json)
    (c : RequestsRapiClient) (method path : String)
    (query : Option (List (String × QVal))) (content : Option Json)
    (net : RequestsNet) : Except Err Json :=
  match queryPrepErr query with
  | some e => Except.error e
  | Option.none =>
    match net with
    | RequestsNet.connectionError =>
      Except.error (Err.ganetiApiError ("Couldn\x27t connect to " ++ c.base_url) Option.none)
    | RequestsNet.timeout =>
      Except.error (Err.ganetiApiError ("Timed out connecting to " ++ c.base_url) Option.none)
    | RequestsNet.response r =>
      if r.status_code != 200 then
        Except.error (Err.typeError "GanetiApiError does not take keyword arguments")
      else if r.content != "" then loads r.content
      else Except.ok Json.null

/-- async.py JsonResponseProtocol.connectionLost (lines 74-80): join the
accumulated chunks and hand the result to simplejson.loads unconditionally -
an empty body is passed to the decoder like any other; the decoded value is
delivered through the finished deferred, a decode exception through its
errback. -/
def JsonResponseProtocol.connectionLost (loads : String → Except Err Json)
    (buf : List String) : Except Err Json :=
  loads (String.join buf)

/-- async.py TwistedRapiClient.request (lines 125-183).  A path that does not
start with "/" is rejected before anything else (in particular before any
network activity) by a raise ClientError(...) statement - but since the
ClientError import is the statement that makes the whole module fail to
load, the embedding models reaching it as async_import_failure: no
ClientError failure can ever be produced.  Then the query, when truthy, goes
through
prepare_query (whose exception propagates).  A ConnectionRefusedError on the
agent deferred becomes GanetiApiError("Connection refused!"); a response with
a status other than 200 makes the callback raise NotOkayError(code=status)
without reading the body; on a 200 the delivered body chunks reach
connectionLost and the overall result is the decode outcome. -/
def TwistedRapiClient.request (loads : String → Except Err Json)
    (c : TwistedRapiClient) (method path : String)
    (query : Option (List (String × QVal))) (content : Option Json)
    (net : TwistedNet) : Except Err Json :=
  if !(startswith path "/") then
    Except.error async_import_failure
  else
    match queryPrepErr query with
    | some e => Except.error e
    | Option.none =>
      match net with
      | TwistedNet.connectionRefused =>
        Except.error (Err.ganetiApiError "Connection refused!" Option.none)
      | TwistedNet.response code chunks =>
        if code != 200 then Except.error (Err.notOkayError (some code))
        else JsonResponseProtocol.connectionLost loads chunks

/-- async.py TwistedRapiClient.start (lines 192-220), as a function of the
outcomes of its two requests (GET /version and GET /2/features) and of the
client state; it returns the updated client together with the exception that
escaped, if any.  If the version request yields anything but 2 the start
raises GanetiApiError("Can\x27t work with Ganeti RAPI version %d" % version)
before assigning self.version - where the %d conversion itself raises
TypeError for a non-numeric version (format_d).  Only after the check does it
store version = 2 and run the features request; a NotOkayError whose code
is 404 is recovered by storing the empty feature list, any other exception
escapes with self.features still unassigned. -/
def TwistedRapiClient.start (vResp fResp : Except Err Json)
    (c : TwistedRapiClient) : TwistedRapiClient × Option Err :=
  match vResp with
  | Except.error e => (c, some e)
  | Except.ok version =>
    match version with
    | Json.int 2 =>
      let c1 : TwistedRapiClient := ⟨c.auth, c.base_url, Json.int 2, c.features⟩
      match fResp with
      | Except.ok features => (⟨c1.auth, c1.base_url, c1.version, features⟩, Option.none)
      | Except.error (Err.notOkayError code) =>
        if code = some 404 then
          (⟨c1.auth, c1.base_url, c1.version, Json.arr []⟩, Option.none)
        else (c1, some (Err.notOkayError code))
      | Except.error e => (c1, some e)
    | v =>
      (c, some (match format_d v with
                | Except.ok s =>
                  Err.ganetiApiError ("Can\x27t work with Ganeti RAPI version " ++ s) Option.none
                | Except.error e => e))

/-- Does this outcome consist of a raised ClientError (the failure kind the
spec names ClientConfigError)?  No definition in this file ever produces it,
matching the absence of the class from the repository. -/
def isClientErrorFailure {α : Type} : Except Err α → Bool
  | Except.error (Err.clientError _) => true
  | _ => false

/-- Does this outcome consist of a raised NameError? -/
def isNameErrorFailure {α : Type} : Except Err α → Bool
  | Except.error (Err.nameError _) => true
  | _ => false

/-- Does this outcome consist of a raised ImportError? -/
def isImportErrorFailure {α : Type} : Except Err α → Bool
  | Except.error (Err.importError _) => true
  | _ => false

/-- A concrete stand-in for simplejson.loads, used only to instantiate the
decoder parameter in closed statements.  Like the library it fails on an
empty input with the "Expecting value" decode error; it understands just the
few literals the closed statements feed it. -/
def loads0 (s : String) : Except Err Json :=
  if s = "" then Except.error (Err.jsonDecodeError "Expecting value: line 1 column 1 (char 0)")
  else if s = "2" then Except.ok (Json.int 2)
  else if s = "null" then Except.ok Json.null
  else if s = "[]" then Except.ok (Json.arr [])
  else Except.error (Err.jsonDecodeError "Expecting value: line 1 column 1 (char 0)")

/-- A concrete sync client state, as produced by
RequestsRapiClient.init (fun _ => false) "example.test" 5080 none none 60. -/
def sampleSyncClient : RequestsRapiClient :=
  ⟨Option.none, Option.none, 60, "https://example.test:5080"⟩

/-- A concrete Twisted client state, as produced by
TwistedRapiClient.init "example.test" 5080 none none 60. -/
def sampleTwistedClient : TwistedRapiClient :=
  ⟨Option.none, "https://example.test:5080", Json.null, Json.arr []⟩

/-
Theorems settling the claims.
-/

/-- Claim C7: query coercion is idempotent - for every query mapping on which
prepare_query succeeds (raises nothing), running prepare_query again on the
resulting mapping returns that same mapping and again raises nothing. -/
theorem c7_idempotent (q : List (String × QVal))
    (h : (prepare_query q).2 = Option.none) :
    prepare_query (prepare_query q).1 = prepare_query q := by
  induction q with
  | nil => rfl
  | cons kv rest ih =>
    obtain ⟨k, v⟩ := kv
    cases v with
    | none =>
      have h2 : (prepare_query rest).2 = Option.none := by
        simpa [prepare_query] using h
      have hih := ih h2
      simp [prepare_query, hih, h2]
    | bool b =>
      have h2 : (prepare_query rest).2 = Option.none := by
        simpa [prepare_query] using h
      have hih := ih h2
      cases b <;> simp [prepare_query, hih, h2]
    | int n =>
      have h2 : (prepare_query rest).2 = Option.none := by
        simpa [prepare_query] using h
      have hih := ih h2
      simp [prepare_query, hih, h2]
    | float f =>
      have h2 : (prepare_query rest).2 = Option.none := by
        simpa [prepare_query] using h
      have hih := ih h2
      simp [prepare_query, hih, h2]
    | str s =>
      have h2 : (prepare_query rest).2 = Option.none := by
        simpa [prepare_query] using h
      have hih := ih h2
      simp [prepare_query, hih, h2]
    | list xs =>
      have h2 : (prepare_query rest).2 = Option.none := by
        simpa [prepare_query] using h
      have hih := ih h2
      simp [prepare_query, hih, h2]
    | dict d =>
      simp [prepare_query] at h

/-- Claim C7, witness: a concrete mapping on which coercion succeeds, with
the idempotence instance. -/
theorem c7_idempotent_witness :
    (prepare_query [("a", QVal.none), ("b", QVal.bool true), ("c", QVal.int 3)]).2
      = Option.none ∧
    prepare_query (prepare_query
        [("a", QVal.none), ("b", QVal.bool true), ("c", QVal.int 3)]).1
      = prepare_query [("a", QVal.none), ("b", QVal.bool true), ("c", QVal.int 3)] :=
  ⟨rfl, c7_idempotent [("a", QVal.none), ("b", QVal.bool true), ("c", QVal.int 3)] rfl⟩

/-- Claim C8: prepare_query rewrites each entry independently of the rest of
the mapping: a None value becomes the empty string, True becomes the integer
1 and False the integer 0, a nested dict raises ValueError (the failure the
spec names InvalidQueryValue) leaving the entry and everything after it
untouched, and an int, float, str or list value passes through unchanged
(with the rest of the mapping processed as before in each passing case). -/
theorem c8_coercion_rules (k : String) (rest : List (String × QVal)) :
    prepare_query ((k, QVal.none) :: rest)
      = ((k, QVal.str "") :: (prepare_query rest).1, (prepare_query rest).2) ∧
    prepare_query ((k, QVal.bool true) :: rest)
      = ((k, QVal.int 1) :: (prepare_query rest).1, (prepare_query rest).2) ∧
    prepare_query ((k, QVal.bool false) :: rest)
      = ((k, QVal.int 0) :: (prepare_query rest).1, (prepare_query rest).2) ∧
    (∀ d, prepare_query ((k, QVal.dict d) :: rest)
      = ((k, QVal.dict d) :: rest,
         some (Err.valueError "Invalid query data type \x27dict\x27"))) ∧
    (∀ n : Int, prepare_query ((k, QVal.int n) :: rest)
      = ((k, QVal.int n) :: (prepare_query rest).1, (prepare_query rest).2)) ∧
    (∀ f : Float, prepare_query ((k, QVal.float f) :: rest)
      = ((k, QVal.float f) :: (prepare_query rest).1, (prepare_query rest).2)) ∧
    (∀ s : String, prepare_query ((k, QVal.str s) :: rest)
      = ((k, QVal.str s) :: (prepare_query rest).1, (prepare_query rest).2)) ∧
    (∀ xs : List QVal, prepare_query ((k, QVal.list xs) :: rest)
      = ((k, QVal.list xs) :: (prepare_query rest).1, (prepare_query rest).2)) :=
  ⟨rfl, rfl, rfl, fun _ => rfl, fun _ => rfl, fun _ => rfl, fun _ => rfl, fun _ => rfl⟩

/-- Claim C10: prepare_query works by mutating the dict it is given (the
embedding returns the dict state at exit), and there is a mapping - one whose
iteration order puts a coercible entry before a nested-dict entry - on which
it raises ValueError while the mapping has already been changed: the first
entry is left coerced, so the mapping is neither the original nor fully
coerced, and nothing restores the original contents. -/
theorem c10_partial_mutation :
    prepare_query [("a", QVal.none), ("b", QVal.dict [])]
      = ([("a", QVal.str ""), ("b", QVal.dict [])],
         some (Err.valueError "Invalid query data type \x27dict\x27")) ∧
    [("a", QVal.str ""), ("b", QVal.dict [])]
      ≠ [("a", QVal.none), ("b", QVal.dict [])] :=
  ⟨rfl, by
    intro h
    injection h with h1 _
    injection h1 with _ h2
    exact QVal.noConfusion h2⟩

/-- Claim C5 (code bug): both __init__ methods guard against exactly the
condition the claim names - a username without a password or a password
without a username, checked before anything else and with no network
activity - but neither can deliver the ClientConfigError (ClientError) the
claim and the code intend, because no ClientError class exists in the
repository: the blocking client fails the construction with NameError, the
non-blocking client cannot even be constructed since its module fails at
the ClientError import (modelled as async_import_failure), and on no input
does either constructor produce a ClientError failure.  Supplying both or
neither credential constructs the client without any of these failures. -/
theorem c5_construction_bug (isV6 : String → Bool) (host : String)
    (port : Nat) (username password : Option String) (timeout : Nat) :
    (isNameErrorFailure
        (RequestsRapiClient.init isV6 host port username password timeout)
      = ((username.isSome && password.isNone) || (password.isSome && username.isNone))) ∧
    (isImportErrorFailure
        (TwistedRapiClient.init host port username password timeout)
      = ((username.isSome && password.isNone) || (password.isSome && username.isNone))) ∧
    (∀ u : String,
      RequestsRapiClient.init isV6 host port (some u) Option.none timeout
        = Except.error (Err.nameError "global name \x27ClientError\x27 is not defined") ∧
      TwistedRapiClient.init host port (some u) Option.none timeout
        = Except.error async_import_failure) ∧
    (∀ p : String,
      RequestsRapiClient.init isV6 host port Option.none (some p) timeout
        = Except.error (Err.nameError "global name \x27ClientError\x27 is not defined") ∧
      TwistedRapiClient.init host port Option.none (some p) timeout
        = Except.error async_import_failure) ∧
    (isClientErrorFailure
        (RequestsRapiClient.init isV6 host port username password timeout) = false) ∧
    (isClientErrorFailure
        (TwistedRapiClient.init host port username password timeout) = false) := by
  refine ⟨?_, ?_, fun u => ⟨rfl, rfl⟩, fun p => ⟨rfl, rfl⟩, ?_, ?_⟩ <;>
    cases username <;> cases password <;> rfl

/-- Claim C9, corrected form: the blocking client computes
https://[host]:port exactly when inet_pton accepts the host as an IPv6
literal and https://host:port otherwise, while the non-blocking client
always computes https://host:port, never bracketing the host. -/
theorem c9_base_url (isV6 : String → Bool) (host : String) (port : Nat) :
    (isV6 host = true →
      requests_base_url isV6 host port
        = "https://[" ++ host ++ "]:" ++ toString port) ∧
    (isV6 host = false →
      requests_base_url isV6 host port
        = "https://" ++ host ++ ":" ++ toString port) ∧
    twisted_base_url host port = "https://" ++ host ++ ":" ++ toString port := by
  refine ⟨fun h => ?_, fun h => ?_, rfl⟩ <;>
    simp [requests_base_url, sync_address, h, ← String.append_assoc]

/-- Claim C9, witness: the IPv6 branch and the non-IPv6 branch of the
blocking client at concrete hosts. -/
theorem c9_base_url_witness :
    requests_base_url (fun _ => true) "::1" 5080 = "https://[::1]:5080" ∧
    requests_base_url (fun _ => false) "example.test" 5080
      = "https://example.test:5080" := by
  constructor
  · rw [(c9_base_url (fun _ => true) "::1" 5080).1 rfl]; decide
  · rw [(c9_base_url (fun _ => false) "example.test" 5080).2.1 rfl]; decide

/-- Claim C9, counterexample: the claim asserts that on both variants the
host is bracketed if and only if it is an IPv6 literal, but the non-blocking
client never brackets: for the IPv6 literal "::1" (accepted by
socket.inet_pton with AF_INET6) its base URL is https://::1:5080, which
differs from the bracketed https://[::1]:5080 the blocking client computes
for the same host. -/
theorem c9_counterexample :
    twisted_base_url "::1" 5080 = "https://::1:5080" ∧
    twisted_base_url "::1" 5080 ≠ requests_base_url (fun _ => true) "::1" 5080 := by
  exact ⟨rfl, by decide⟩

/-- Claim C1, corrected form: when the server responds with a status other
than 200 (for any request whose pre-network phase - path check and query
coercion - passes), the non-blocking transport fails with
NotOkayError(code=status), while the blocking transport attempts
GanetiApiError(str(status), code=status), whose construction fails because
GanetiApiError accepts no code keyword (only NotOkayError declares one in
errors.py), so the blocking exchange actually fails with
TypeError("GanetiApiError does not take keyword arguments") - it never
produces the NotOkay failure kind, nor any failure carrying the status
code. -/
theorem c1_nonok_dispatch (loads : String → Except Err Json)
    (ct : TwistedRapiClient) (cs : RequestsRapiClient)
    (method path : String) (query : Option (List (String × QVal)))
    (content : Option Json) (code : Nat) (chunks : List String)
    (r : SyncResponse)
    (hp : startswith path "/" = true) (hq : queryPrepErr query = Option.none)
    (hc : code ≠ 200) (hr : r.status_code ≠ 200) :
    TwistedRapiClient.request loads ct method path query content
        (TwistedNet.response code chunks)
      = Except.error (Err.notOkayError (some code)) ∧
    RequestsRapiClient.sendRequest loads cs method path query content
        (RequestsNet.response r)
      = Except.error (Err.typeError
          "GanetiApiError does not take keyword arguments") := by
  constructor
  · simp [TwistedRapiClient.request, hp, hq, hc]
  · simp [RequestsRapiClient.sendRequest, hq, hr]

/-- Claim C1, witness: a concrete 500 response on each transport. -/
theorem c1_nonok_dispatch_witness :
    TwistedRapiClient.request loads0 sampleTwistedClient "get" "/info"
        Option.none Option.none (TwistedNet.response 500 [])
      = Except.error (Err.notOkayError (some 500)) ∧
    RequestsRapiClient.sendRequest loads0 sampleSyncClient "get" "/info"
        Option.none Option.none (RequestsNet.response ⟨500, ""⟩)
      = Except.error (Err.typeError
          "GanetiApiError does not take keyword arguments") :=
  c1_nonok_dispatch loads0 sampleTwistedClient sampleSyncClient "get" "/info"
    Option.none Option.none 500 [] ⟨500, ""⟩ rfl rfl
    (by decide) (by decide)

/-- Claim C1, counterexample: the claim says every non-200 response fails
with the NotOkay failure on all paths, but on the blocking transport a 500
response never produces a NotOkayError: sync.py line 207 tries to build the
plain GanetiApiError with a code keyword its class rejects (Python 2
BaseException takes no keyword arguments), so the exchange fails with
TypeError - a different failure kind from NotOkayError. -/
theorem c1_counterexample :
    RequestsRapiClient.sendRequest loads0 sampleSyncClient "get" "/info"
        Option.none Option.none (RequestsNet.response ⟨500, ""⟩)
      = Except.error (Err.typeError
          "GanetiApiError does not take keyword arguments") ∧
    Err.typeError "GanetiApiError does not take keyword arguments"
      ≠ Err.notOkayError (some 500) :=
  ⟨rfl, by decide⟩

/-- Claim C4, corrected form: the non-blocking transport checks the path
before anything else and aborts every request whose path does not start
with "/" regardless of the network event - that is, before any network call
- but the raise ClientError(...) it executes names a class absent from the
repository, so the failure is never the ClientConfigError the claim asserts
(what manifests is the ImportError that in real Python already prevents the
module from loading); meanwhile the blocking transport performs no path
validation at all: its outcome is the same whatever the path, and the URL
it contacts is simply base_url + path. -/
theorem c4_path_validation (loads : String → Except Err Json)
    (ct : TwistedRapiClient) (cs : RequestsRapiClient)
    (method path p1 p2 : String) (query : Option (List (String × QVal)))
    (content : Option Json) (tnet : TwistedNet) (snet : RequestsNet)
    (h : startswith path "/" = false) :
    TwistedRapiClient.request loads ct method path query content tnet
      = Except.error async_import_failure ∧
    isClientErrorFailure
        (TwistedRapiClient.request loads ct method path query content tnet)
      = false ∧
    RequestsRapiClient.sendRequest loads cs method p1 query content snet
      = RequestsRapiClient.sendRequest loads cs method p2 query content snet := by
  refine ⟨?_, ?_, rfl⟩ <;> simp [TwistedRapiClient.request, h,
    async_import_failure, isClientErrorFailure]

/-- Claim C4, witness: the slash-less path "version" from the testable
property, aborted by the non-blocking client under every network event -
but never with a ClientError failure. -/
theorem c4_path_validation_witness :
    TwistedRapiClient.request loads0 sampleTwistedClient "get" "version"
        Option.none Option.none (TwistedNet.response 200 ["2"])
      = Except.error async_import_failure ∧
    RequestsRapiClient.sendRequest loads0 sampleSyncClient "get" "version"
        Option.none Option.none (RequestsNet.response ⟨200, "2"⟩)
      = RequestsRapiClient.sendRequest loads0 sampleSyncClient "get" "/version"
        Option.none Option.none (RequestsNet.response ⟨200, "2"⟩) :=
  ⟨(c4_path_validation loads0 sampleTwistedClient sampleSyncClient "get"
      "version" "version" "/version" Option.none Option.none
      (TwistedNet.response 200 ["2"]) (RequestsNet.response ⟨200, "2"⟩) rfl).1,
   (c4_path_validation loads0 sampleTwistedClient sampleSyncClient "get"
      "version" "version" "/version" Option.none Option.none
      (TwistedNet.response 200 ["2"]) (RequestsNet.response ⟨200, "2"⟩) rfl).2.2⟩

/-- Claim C4, counterexample: the claim says a slash-less path fails with
ClientConfigError on either transport before any network call, but the
blocking transport sends the request anyway - here the exchange for path
"version" completes normally and returns the decoded no-content result. -/
theorem c4_counterexample :
    RequestsRapiClient.sendRequest loads0 sampleSyncClient "get" "version"
        Option.none Option.none (RequestsNet.response ⟨200, ""⟩)
      = Except.ok Json.null := rfl

/-- Claim C6, corrected form: a 200 response with an empty body succeeds
with the explicit no-content result (None) on the blocking transport, which
returns before ever invoking the decoder; but on the non-blocking transport
the empty accumulated body is handed to the JSON decoder like any other, so
the request fails with whatever error the decoder raises on empty input
(with simplejson that is the "Expecting value" decode error). -/
theorem c6_empty_body (loads : String → Except Err Json)
    (cs : RequestsRapiClient) (ct : TwistedRapiClient)
    (method path : String) (query : Option (List (String × QVal)))
    (content : Option Json) (e : Err)
    (hp : startswith path "/" = true) (hq : queryPrepErr query = Option.none)
    (he : loads "" = Except.error e) :
    RequestsRapiClient.sendRequest loads cs method path query content
        (RequestsNet.response ⟨200, ""⟩)
      = Except.ok Json.null ∧
    TwistedRapiClient.request loads ct method path query content
        (TwistedNet.response 200 [])
      = Except.error e := by
  constructor
  · simp [RequestsRapiClient.sendRequest, hq]
  · simp [TwistedRapiClient.request, hp, hq,
      JsonResponseProtocol.connectionLost, String.join, he]

/-- Claim C6, witness: a concrete empty-bodied 200 exchange on each
transport, with the simplejson stand-in as decoder. -/
theorem c6_empty_body_witness :
    RequestsRapiClient.sendRequest loads0 sampleSyncClient "get" "/info"
        Option.none Option.none (RequestsNet.response ⟨200, ""⟩)
      = Except.ok Json.null ∧
    TwistedRapiClient.request loads0 sampleTwistedClient "get" "/info"
        Option.none Option.none (TwistedNet.response 200 [])
      = Except.error (Err.jsonDecodeError "Expecting value: line 1 column 1 (char 0)") :=
  c6_empty_body loads0 sampleSyncClient sampleTwistedClient "get" "/info"
    Option.none Option.none
    (Err.jsonDecodeError "Expecting value: line 1 column 1 (char 0)")
    rfl rfl rfl

/-- Claim C6, counterexample: the claim says an empty 200 body succeeds with
the no-content result on either transport and never fails with a decode
error, but on the non-blocking transport the empty body goes through the
decoder and the request fails with the decode error. -/
theorem c6_counterexample :
    TwistedRapiClient.request loads0 sampleTwistedClient "get" "/info"
        Option.none Option.none (TwistedNet.response 200 [])
      = Except.error (Err.jsonDecodeError "Expecting value: line 1 column 1 (char 0)") :=
  rfl

/-- Claim C2: during start, after a successful version check (the version
request yielded 2), a features request failing with NotOkayError carrying
code 404 is recovered - features becomes the empty list and no failure
escapes - while a features request failing with any other exception
(including NotOkayError with any other code, or no code) makes start fail
with exactly that exception, the features attribute left as it was. -/
theorem c2_handshake_features_404 (c : TwistedRapiClient) (e : Err)
    (he : e ≠ Err.notOkayError (some 404)) :
    TwistedRapiClient.start (Except.ok (Json.int 2))
        (Except.error (Err.notOkayError (some 404))) c
      = (⟨c.auth, c.base_url, Json.int 2, Json.arr []⟩, Option.none) ∧
    TwistedRapiClient.start (Except.ok (Json.int 2)) (Except.error e) c
      = (⟨c.auth, c.base_url, Json.int 2, c.features⟩, some e) := by
  refine ⟨rfl, ?_⟩
  cases e with
  | notOkayError code =>
    have hc : code ≠ some 404 := fun h => he (by rw [h])
    simp [TwistedRapiClient.start, hc]
  | clientError m => rfl
  | ganetiApiError m code => rfl
  | valueError m => rfl
  | typeError m => rfl
  | nameError m => rfl
  | importError m => rfl
  | jsonDecodeError m => rfl

/-- Claim C2, witness: the legacy-server scenario of the spec (version 2,
features endpoint answering 404) recovers with an empty feature list, while
a 500 on the features endpoint propagates unrecovered. -/
theorem c2_handshake_features_404_witness :
    TwistedRapiClient.start (Except.ok (Json.int 2))
        (Except.error (Err.notOkayError (some 404))) sampleTwistedClient
      = (⟨Option.none, "https://example.test:5080", Json.int 2, Json.arr []⟩,
         Option.none) ∧
    TwistedRapiClient.start (Except.ok (Json.int 2))
        (Except.error (Err.notOkayError (some 500))) sampleTwistedClient
      = (⟨Option.none, "https://example.test:5080", Json.int 2, Json.arr []⟩,
         some (Err.notOkayError (some 500))) :=
  ⟨(c2_handshake_features_404 sampleTwistedClient
      (Err.notOkayError (some 500)) (by decide)).1,
   (c2_handshake_features_404 sampleTwistedClient
      (Err.notOkayError (some 500)) (by decide)).2⟩

/-- Claim C3, corrected form: when the version request yields an integer
other than 2 the start fails with
GanetiApiError("Can\x27t work with Ganeti RAPI version %d" % version) - the
failure the spec names UnsupportedApiVersion, whose message carries the
returned value - and the client state is returned untouched (version still
its initial None, features still the initial empty list, whatever the
features request would have answered); but when the version request yields a
non-numeric value (here a string, and likewise None), the %d interpolation
itself raises TypeError, so the start fails with TypeError rather than the
UnsupportedApiVersion failure - the state again untouched. -/
theorem c3_version_rejection (c : TwistedRapiClient)
    (fResp : Except Err Json) (n : Int) (s : String) (hn : n ≠ 2) :
    TwistedRapiClient.start (Except.ok (Json.int n)) fResp c
      = (c, some (Err.ganetiApiError
          ("Can\x27t work with Ganeti RAPI version " ++ toString n)
          Option.none)) ∧
    TwistedRapiClient.start (Except.ok (Json.str s)) fResp c
      = (c, some (Err.typeError "%d format: a number is required, not str")) ∧
    TwistedRapiClient.start (Except.ok Json.null) fResp c
      = (c, some (Err.typeError "%d format: a number is required, not NoneType")) := by
  refine ⟨?_, rfl, rfl⟩
  rcases n with m | m
  · rcases m with _ | _ | _ | m
    · rfl
    · rfl
    · exact absurd rfl hn
    · rfl
  · rfl

/-- Claim C3, witness: the version-rejection scenario of the spec - a server
answering 1 to the version request - fails with the UnsupportedApiVersion
failure carrying 1, and the capabilities of the freshly constructed client
remain unset. -/
theorem c3_version_rejection_witness :
    TwistedRapiClient.start (Except.ok (Json.int 1))
        (Except.ok (Json.arr [])) sampleTwistedClient
      = (sampleTwistedClient,
         some (Err.ganetiApiError "Can\x27t work with Ganeti RAPI version 1"
           Option.none)) :=
  (c3_version_rejection sampleTwistedClient (Except.ok (Json.arr []))
    1 "x" (by decide)).1

/-- Claim C3, counterexample: the claim says that any version value other
than 2 makes start fail with UnsupportedApiVersion carrying that value, but
for the version value "woo" the start fails with the %d-interpolation
TypeError - a distinct constructor of Err from the ganetiApiError that
models UnsupportedApiVersion, so no failure of that kind, with any message,
is produced - and the state is returned untouched. -/
theorem c3_counterexample :
    TwistedRapiClient.start (Except.ok (Json.str "woo"))
        (Except.ok (Json.arr [])) sampleTwistedClient
      = (sampleTwistedClient,
         some (Err.typeError "%d format: a number is required, not str")) :=
  rfl
